import Mathlib

/-!
Verification development for the WASAPI capture source
(src/plugins/win-wasapi/win-wasapi.cpp, current revision unless noted).

The shallow embedding below translates the pieces of the source that the
properties refer to: the per-packet body of `WASAPISource::ProcessCaptureData`
(echo-cancellation path and raw path), `WASAPISource::InitClient`,
`WASAPISource::Update`, and `WASAPISource::TryInitialize`.  Machine `UINT64`
arithmetic is modelled as `Nat` with explicit wrap-around at `2 ^ 64`.
-/

namespace Wasapi

/-- Modulus of `UINT64` arithmetic: 2 ^ 64. -/
def U64MOD : Nat := 18446744073709551616

/-- Reduce a natural number into the `UINT64` range. -/
def wrap64 (n : Nat) : Nat := n % U64MOD

/-- Wrapping `UINT64` subtraction, as C computes `a - b` on `uint64_t`. -/
def sub64 (a b : Nat) : Nat := (wrap64 a + (U64MOD - wrap64 b)) % U64MOD

/-- Audio sample format tags used by the emitted frames
(`AUDIO_FORMAT_FLOAT` for the raw path, `AUDIO_FORMAT_16BIT` for the AEC path). -/
inductive AudioFormat where
  | float
  | int16
deriving DecidableEq

/-- The `SPEAKERS_MONO` layout code used by the AEC-path emissions. -/
def SPEAKERS_MONO : Nat := 1

/-- One emitted `obs_source_audio` frame: frame count, speaker layout code,
sample rate, sample format and presentation timestamp in nanoseconds. -/
structure ObsAudio where
  frames : Nat
  speakers : Nat
  samples_per_sec : Nat
  format : AudioFormat
  timestamp : Nat
deriving DecidableEq

/-- A queued `CMediaBuffer`: its stored timestamp (in 100 ns units, set at
creation) and its payload length in bytes (`frames * 2` for the converted
mono 16-bit near-end data). -/
structure CMediaBuffer where
  timestamp : Nat
  lengthBytes : Nat
deriving DecidableEq

/-- Mutable state of the capture loop's AEC pipeline:
the `dmoActive` flag and the pending near-end queue `inputQueue`
(`std::deque`, `push_back` to enqueue, `front`/`pop_front` to dequeue,
so the list head is the oldest batch). -/
structure AecState where
  dmoActive : Bool
  inputQueue : List CMediaBuffer
deriving DecidableEq

/-- Per-packet inputs of one iteration of the `while (true)` drain loop in
`ProcessCaptureData` (AEC path): the near-end frame count from
`capture->GetBuffer`, the wall clock `os_gettime_ns()`, the far-end packet
from `captureRender` when one is available (`some outframes`), whether the
`ProcessInput`/`ProcessOutput` calls on the DMO all succeed, and the byte
length the DMO reports for its output buffer. -/
structure AecInput where
  frames : Nat
  nowNs : Nat
  farFrames : Option Nat
  dmoOk : Bool
  dmoOutLenBytes : Nat
deriving DecidableEq

/-- Result of one AEC-path packet iteration: the new pipeline state, the
frame handed to `obs_source_output_audio` (if any), how many times
`captureDMO->Flush()` ran, and whether the near-end queue was popped. -/
structure AecStepResult where
  state : AecState
  emitted : Option ObsAudio
  flushes : Nat
  popped : Bool
deriving DecidableEq

/-- Timestamp stored into each `CMediaBuffer` at creation:
`(os_gettime_ns() / 100) - 100000` (10 ms), on `UINT64`. -/
def osTsOf (nowNs : Nat) : Nat := sub64 (nowNs / 100) 100000

/-- The raw near-end emission of the `!outputDone` branch: the popped
mono 16-bit buffer at the device input sample rate, emitted only when its
length exceeds one byte, with timestamp `GetTimestamp() * 100`. -/
def bypassFrame (inputSampleRate : Nat) (b : CMediaBuffer) : Option ObsAudio :=
  if 1 < b.lengthBytes then
    some ⟨b.lengthBytes / 2, SPEAKERS_MONO, inputSampleRate, AudioFormat.int16,
          wrap64 (b.timestamp * 100)⟩
  else none

/-- The cancelled-output emission after a successful `ProcessOutput`: a mono
16-bit frame at the DMO's fixed 22050 Hz rate, emitted only when the output
length exceeds one byte, with timestamp `GetTimestamp() * 100` of the popped
near-end buffer. -/
def cancelFrame (outLenBytes : Nat) (b : CMediaBuffer) : Option ObsAudio :=
  if 1 < outLenBytes then
    some ⟨outLenBytes / 2, SPEAKERS_MONO, 22050, AudioFormat.int16,
          wrap64 (b.timestamp * 100)⟩
  else none

/-- One packet iteration of `ProcessCaptureData` with `captureDMO` present
(current revision, lines 800-924): convert the near-end packet and push it
onto `inputQueue`; take the far-end packet when available; when the queue
depth exceeds `aecInputDelay`, pop the oldest near-end batch and either run
the canceller on the pair (flushing first when `dmoActive` is false) or,
without a far-end batch or on a DMO failure, emit the popped batch raw and
clear `dmoActive`. -/
def aecStep (aecInputDelay inputSampleRate : Nat) (s : AecState)
    (inp : AecInput) : AecStepResult :=
  let inBuf : CMediaBuffer := ⟨osTsOf inp.nowNs, inp.frames * 2⟩
  let q := s.inputQueue ++ [inBuf]
  if aecInputDelay < q.length then
    let popBuf := q.headD ⟨0, 0⟩
    let rest := q.tail
    match inp.farFrames with
    | some _ =>
      if inp.dmoOk then
        ⟨⟨true, rest⟩, cancelFrame inp.dmoOutLenBytes popBuf,
         if s.dmoActive then 0 else 1, true⟩
      else
        ⟨⟨false, rest⟩, bypassFrame inputSampleRate popBuf,
         if s.dmoActive then 0 else 1, true⟩
    | none =>
      ⟨⟨false, rest⟩, bypassFrame inputSampleRate popBuf, 0, true⟩
  else
    ⟨⟨s.dmoActive, q⟩, none, 0, false⟩

/-- State reached by running the AEC packet iteration over a list of packets. -/
def aecRunState (d rate : Nat) (s : AecState) : List AecInput → AecState
  | [] => s
  | i :: is => aecRunState d rate (aecStep d rate s i).state is

/-- The per-iteration emissions of a run of the AEC packet iteration. -/
def aecRunEmits (d rate : Nat) (s : AecState) : List AecInput → List (Option ObsAudio)
  | [] => []
  | i :: is => (aecStep d rate s i).emitted :: aecRunEmits d rate (aecStep d rate s i).state is

/-- Capture-thread start state: `dmoActive = false`, empty near-end queue. -/
def initialAecState : AecState := ⟨false, []⟩

/-- Emitted timestamp of the non-AEC path (lines 925-939):
`useDeviceTiming ? ts * 100 : os_gettime_ns()`, then minus
`frames * 1000000000 / sampleRate` when not using device timing,
all on `UINT64`. -/
def rawTimestamp (useDeviceTiming : Bool) (deviceTs nowNs frames sampleRate : Nat) : Nat :=
  if useDeviceTiming then wrap64 (deviceTs * 100)
  else sub64 nowNs (frames * 1000000000 / sampleRate)

/-- The frame emitted by the non-AEC path: the raw buffer with the session's
speakers/sample-rate/format and the timestamp policy above. -/
def rawEmit (useDeviceTiming : Bool) (speakers sampleRate : Nat) (fmt : AudioFormat)
    (frames deviceTs nowNs : Nat) : ObsAudio :=
  ⟨frames, speakers, sampleRate, fmt,
   rawTimestamp useDeviceTiming deviceTs nowNs frames sampleRate⟩

/-- Encoding tag of a `WAVEFORMATEX` (float vs. integer PCM). -/
inductive FormatTag where
  | float
  | pcm16
deriving DecidableEq

/-- The fields of a `WAVEFORMATEX` that format negotiation touches. -/
structure WaveFormat where
  nChannels : Nat
  nSamplesPerSec : Nat
  wBitsPerSample : Nat
  nBlockAlign : Nat
  tag : FormatTag
deriving DecidableEq

/-- The session format fields set by `InitFormat`: sample rate from the mix
format and always `AUDIO_FORMAT_FLOAT`. -/
structure SessionFormat where
  sampleRate : Nat
  format : AudioFormat
deriving DecidableEq

/-- `WASAPISource::InitClient` (lines 354-379): activate the client, take the
device mix format, record it via `InitFormat`, and call `Initialize` with that
mix format once; any failure throws.  `deviceAccepts` stands for whether
`client->Initialize` succeeds on a given format.  There is no retry and no
alternative format: the single attempt uses the mix format unchanged. -/
def initClient (mix : WaveFormat) (deviceAccepts : WaveFormat → Bool) :
    Option SessionFormat :=
  if deviceAccepts mix then some ⟨mix.nSamplesPerSec, AudioFormat.float⟩
  else none

/-- Modelled from the spec: rung (1) of the fallback ladder described in
section 4.1 (absent from the code) — force mono, 16-bit integer PCM, keeping
the native sample rate; block alignment recomputed as channels times
bytes-per-sample. -/
def specRung1 (mix : WaveFormat) : WaveFormat :=
  ⟨1, mix.nSamplesPerSec, 16, 1 * (16 / 8), FormatTag.pcm16⟩

/-- Modelled from the spec: rung (2) of the fallback ladder described in
section 4.1 (absent from the code) — additionally force the fixed fallback
sample rate, 22050 Hz when echo cancellation will be used, else 44100 Hz. -/
def specRung2 (_mix : WaveFormat) (aecWillBeUsed : Bool) : WaveFormat :=
  ⟨1, if aecWillBeUsed then 22050 else 44100, 16, 1 * (16 / 8), FormatTag.pcm16⟩

/-- The configuration fields read by `UpdateSettings` / compared by `Update`. -/
structure SourceConfig where
  device_id : String
  useDeviceTiming : Bool
  disableAEC : Bool
  aecInputDelay : Int
  aecDumpFileDir : String
deriving DecidableEq

/-- The restart predicate of `WASAPISource::Update` (lines 309-324): tear
down and reopen exactly when the device id, the AEC-disable flag or the AEC
input delay changed.  The timing flag and the dump directory are not
compared. -/
def updateRestart (cur fresh : SourceConfig) : Bool :=
  (!(fresh.device_id == cur.device_id)) ||
  (!(fresh.disableAEC == cur.disableAEC)) ||
  (!(fresh.aecInputDelay == cur.aecInputDelay))

/-- `WASAPISource::Update`: always swap in the new configuration
(`UpdateSettings`), restarting the session around the swap exactly when
`updateRestart` holds. -/
def update (cur fresh : SourceConfig) : SourceConfig × Bool :=
  (fresh, updateRestart cur fresh)

/-- Outcome of one `Initialize()` call inside `TryInitialize`:
complete success; a thrown `HRError` / C-string error; or the silent early
return taken when `InitDevice` fails (endpoint not found) — no exception,
`active` stays false. -/
inductive InitAttempt where
  | success
  | throwFail
  | silentFail
deriving DecidableEq

/-- The `WASAPISource` fields that `TryInitialize` reads and writes:
`previouslyFailed` and `active`. -/
structure TIState where
  previouslyFailed : Bool
  active : Bool
deriving DecidableEq

/-- `WASAPISource::TryInitialize` (lines 687-713): on success `active`
becomes true and `previouslyFailed` false; on a thrown error, return early
(no log) when `previouslyFailed` is set, otherwise log one warning and set
`previouslyFailed := !active`; on the silent `InitDevice` failure no catch
runs, so no warning, and `previouslyFailed := !active`.  The boolean in the
result is whether a `LOG_WARNING` line was produced. -/
def tryInitialize (a : InitAttempt) (s : TIState) : TIState × Bool :=
  match a with
  | InitAttempt.success => (⟨false, true⟩, false)
  | InitAttempt.throwFail =>
    if s.previouslyFailed then (s, false)
    else (⟨!s.active, s.active⟩, true)
  | InitAttempt.silentFail => (⟨!s.active, s.active⟩, false)

/-- Warnings produced by a sequence of `TryInitialize` calls. -/
def warnCount (s : TIState) : List InitAttempt → Nat
  | [] => 0
  | a :: as =>
    (if (tryInitialize a s).2 then 1 else 0) + warnCount (tryInitialize a s).1 as

/-- The sample clamp of the AEC conversion loops (lines 808-811, 830-833):
`(f > 1.0f) ? 1.0f : (f < -1.0f) ? -1.0f : f`.  Float comparison and
selection are exact, so the clamp is modelled on exact rationals. -/
def clampSample (f : ℚ) : ℚ := if f > 1 then 1 else if f < -1 then -1 else f

/-- Truncation toward zero, the semantics of C's float-to-`short` cast. -/
def truncToInt (q : ℚ) : ℤ := if 0 ≤ q then ⌊q⌋ else -⌊-q⌋

/-- The float-to-int16 sample conversion of the AEC path:
`(short)(clamp(f, -1, 1) * 0x7fff)`. -/
def floatToInt16 (f : ℚ) : ℤ := truncToInt (clampSample f * 32767)

/-- The whole conversion loop: frame `i` of the interleaved float buffer
contributes sample `buffer[i * nChannels]` (channel 0 of the frame),
converted by `floatToInt16`. -/
def convertBatch (nChannels : Nat) (buffer : List ℚ) (frames : Nat) : List ℤ :=
  (List.range frames).map (fun i => floatToInt16 (buffer.getD (i * nChannels) 0))

/-! Shared arithmetic lemmas. -/

theorem wrap64_eq_of_lt {n : Nat} (h : n < U64MOD) : wrap64 n = n :=
  Nat.mod_eq_of_lt h

theorem sub64_eq_sub {a b : Nat} (hb : b ≤ a) (ha : a < U64MOD) :
    sub64 a b = a - b := by
  unfold sub64 wrap64 U64MOD at *
  omega

/-! C4: timestamp policy of the non-AEC emission path. -/

/-- C4: without an echo-cancellation pipeline, an emitted batch's timestamp
with `use_device_timing = false` equals wall-clock-now minus
`frames * 10^9 / sampleRate` nanoseconds and does not depend on the
device-reported timestamp; with `use_device_timing = true` it equals the
device-reported timestamp scaled to nanoseconds (times 100). -/
theorem raw_timestamp_policy :
    (∀ deviceTs deviceTs2 nowNs frames sampleRate : Nat,
       rawTimestamp false deviceTs nowNs frames sampleRate =
         rawTimestamp false deviceTs2 nowNs frames sampleRate) ∧
    (∀ deviceTs nowNs frames sampleRate : Nat,
       frames * 1000000000 / sampleRate ≤ nowNs → nowNs < U64MOD →
       rawTimestamp false deviceTs nowNs frames sampleRate =
         nowNs - frames * 1000000000 / sampleRate) ∧
    (∀ deviceTs nowNs frames sampleRate : Nat,
       deviceTs * 100 < U64MOD →
       rawTimestamp true deviceTs nowNs frames sampleRate = deviceTs * 100) := by
  refine ⟨fun _ _ _ _ _ => rfl,
          fun deviceTs nowNs frames sampleRate h1 h2 => ?_,
          fun deviceTs nowNs frames sampleRate h => ?_⟩
  · simp only [rawTimestamp, Bool.false_eq_true, if_false]
    exact sub64_eq_sub h1 h2
  · simp only [rawTimestamp, if_true]
    exact wrap64_eq_of_lt h

/-- Witness for C4 at concrete inputs. -/
theorem raw_timestamp_policy_witness :
    rawTimestamp false 123456 1000000000 441 44100 =
      1000000000 - 441 * 1000000000 / 44100 ∧
    rawTimestamp true 123456 0 0 0 = 12345600 :=
  ⟨raw_timestamp_policy.2.1 123456 1000000000 441 44100 (by decide) (by decide),
   raw_timestamp_policy.2.2 123456 0 0 0 (by decide)⟩

/-! C2: format negotiation.  The cited code (`InitClient`) makes a single
initialization attempt with the device's mix format and throws on failure;
there is no fallback ladder, no fallback level, and no recomputation of
block alignment anywhere in the source. -/

/-- Native mix format of the simulated device of the C2 counterexample. -/
def c2mix : WaveFormat := ⟨2, 48000, 32, 8, FormatTag.float⟩

/-- A simulated device that rejects the native mix format and the spec's
mono/16-bit rung, accepting only the spec's fixed-fallback-rate rung. -/
def c2accepts : WaveFormat → Bool := fun w => w == specRung2 c2mix true

/-- C2 counterexample: a device that rejects the native mix format and the
mono/16-bit attempt but accepts the fixed-fallback-rate attempt makes
`InitClient` fail outright — negotiation does not succeed at a third rung,
because the code has no fallback ladder. -/
theorem init_client_no_ladder_counterexample :
    c2accepts c2mix = false ∧
    c2accepts (specRung1 c2mix) = false ∧
    c2accepts (specRung2 c2mix true) = true ∧
    initClient c2mix c2accepts = none := by decide

/-- C2 amended: `InitClient` performs exactly one initialization attempt
with the device's native mix format; a device that rejects it fails
negotiation fatally regardless of which degraded formats it would accept,
and on acceptance the session format is float at the native sample rate. -/
theorem init_client_single_attempt :
    (∀ (mix : WaveFormat) (deviceAccepts : WaveFormat → Bool),
       deviceAccepts mix = false → initClient mix deviceAccepts = none) ∧
    (∀ (mix : WaveFormat) (deviceAccepts : WaveFormat → Bool),
       deviceAccepts mix = true →
       initClient mix deviceAccepts = some ⟨mix.nSamplesPerSec, AudioFormat.float⟩) := by
  constructor
  · intro mix acc h
    simp [initClient, h]
  · intro mix acc h
    simp [initClient, h]

/-- Witness for the amended C2 theorem at concrete inputs. -/
theorem init_client_single_attempt_witness :
    initClient c2mix (fun _ => false) = none ∧
    initClient c2mix (fun _ => true) = some ⟨48000, AudioFormat.float⟩ :=
  ⟨init_client_single_attempt.1 c2mix (fun _ => false) rfl,
   init_client_single_attempt.2 c2mix (fun _ => true) rfl⟩

/-! C7: the restart condition of `Update`. -/

/-- Current configuration of the C7 counterexample. -/
def c7cur : SourceConfig := ⟨"default", false, false, 2, ""⟩

/-- New configuration differing from `c7cur` only in the dump directory. -/
def c7new : SourceConfig := ⟨"default", false, false, 2, "C:/aecdump"⟩

/-- C7 counterexample: a configuration change that only alters the AEC dump
directory does not restart the session — `Update` never compares
`aecDumpFileDir`, contrary to the claim that a dump-directory change forces
a teardown/rebuild. -/
theorem update_dumpdir_counterexample :
    c7new.aecDumpFileDir ≠ c7cur.aecDumpFileDir ∧
    c7new.device_id = c7cur.device_id ∧
    c7new.disableAEC = c7cur.disableAEC ∧
    c7new.aecInputDelay = c7cur.aecInputDelay ∧
    updateRestart c7cur c7new = false := by decide

/-- C7 amended: `Update` tears down and reopens the session exactly when the
device id, the echo-cancellation-disable flag, or the AEC input delay
changed; when the timing flag or the dump directory alone change, no restart
happens and only the configuration is swapped. -/
theorem update_restart_condition :
    (∀ cur fresh : SourceConfig,
       updateRestart cur fresh = true ↔
         (fresh.device_id ≠ cur.device_id ∨ fresh.disableAEC ≠ cur.disableAEC ∨
          fresh.aecInputDelay ≠ cur.aecInputDelay)) ∧
    (∀ cur fresh : SourceConfig,
       fresh.device_id = cur.device_id → fresh.disableAEC = cur.disableAEC →
       fresh.aecInputDelay = cur.aecInputDelay →
       (update cur fresh).2 = false ∧ (update cur fresh).1 = fresh) := by
  constructor
  · intro cur fresh
    simp [updateRestart]
    tauto
  · intro cur fresh h1 h2 h3
    refine ⟨?_, rfl⟩
    simp [update, updateRestart, h1, h2, h3]

/-- Witness for the amended C7 theorem at concrete inputs. -/
theorem update_restart_condition_witness :
    (update c7cur c7new).2 = false ∧ (update c7cur c7new).1 = c7new :=
  update_restart_condition.2 c7cur c7new rfl rfl rfl

/-! C8: warning suppression in `TryInitialize`. -/

/-- After a failure has been recorded (`previouslyFailed = true`, inactive),
further failed attempts log nothing at all. -/
theorem warnCount_after_failure (as : List InitAttempt)
    (h : ∀ a ∈ as, a ≠ InitAttempt.success) :
    warnCount ⟨true, false⟩ as = 0 := by
  induction as with
  | nil => rfl
  | cons a as ih =>
    cases a with
    | success => exact absurd rfl (h _ (List.mem_cons_self _ _))
    | throwFail =>
      simpa [warnCount, tryInitialize] using
        ih (fun x hx => h x (List.mem_cons_of_mem _ hx))
    | silentFail =>
      simpa [warnCount, tryInitialize] using
        ih (fun x hx => h x (List.mem_cons_of_mem _ hx))

/-- C8 counterexample: three consecutive session-open failures in which the
endpoint is absent (`InitDevice` returns false, so `Initialize` returns
without throwing) produce zero warning lines, not exactly one — the warning
in `TryInitialize` only fires inside the catch blocks. -/
theorem try_initialize_silent_counterexample :
    ([InitAttempt.silentFail, InitAttempt.silentFail, InitAttempt.silentFail].all
       (fun a => !(a == InitAttempt.success)) = true) ∧
    warnCount ⟨false, false⟩
      [InitAttempt.silentFail, InitAttempt.silentFail, InitAttempt.silentFail] = 0 := by
  decide

/-- C8 amended: a run of consecutive failures starting from a
not-previously-failed inactive state produces at most one warning — exactly
one when the run's first failure throws, zero when the first failure is the
silent endpoint-not-found return — and a throwing failure attempted from any
state with `previouslyFailed = false` (in particular right after a
successful session) is always logged. -/
theorem try_initialize_warn_once :
    (∀ as : List InitAttempt, (∀ a ∈ as, a ≠ InitAttempt.success) →
       warnCount ⟨false, false⟩ as ≤ 1) ∧
    (∀ (a : InitAttempt) (as : List InitAttempt),
       (∀ x ∈ a :: as, x ≠ InitAttempt.success) →
       warnCount ⟨false, false⟩ (a :: as) =
         (if a = InitAttempt.throwFail then 1 else 0)) ∧
    (∀ act : Bool, (tryInitialize InitAttempt.throwFail ⟨false, act⟩).2 = true) := by
  have key : ∀ (a : InitAttempt) (as : List InitAttempt),
      (∀ x ∈ a :: as, x ≠ InitAttempt.success) →
      warnCount ⟨false, false⟩ (a :: as) =
        (if a = InitAttempt.throwFail then 1 else 0) := by
    intro a as h
    cases a with
    | success => exact absurd rfl (h _ (List.mem_cons_self _ _))
    | throwFail =>
      simpa [warnCount, tryInitialize] using
        warnCount_after_failure as (fun x hx => h x (List.mem_cons_of_mem _ hx))
    | silentFail =>
      simpa [warnCount, tryInitialize] using
        warnCount_after_failure as (fun x hx => h x (List.mem_cons_of_mem _ hx))
  refine ⟨?_, key, ?_⟩
  · intro as h
    cases as with
    | nil => simp [warnCount]
    | cons a as =>
      rw [key a as h]
      split <;> omega
  · intro act
    simp [tryInitialize]

/-- Witness for the amended C8 theorem at concrete inputs. -/
theorem try_initialize_warn_once_witness :
    warnCount ⟨false, false⟩
      [InitAttempt.throwFail, InitAttempt.throwFail, InitAttempt.silentFail] =
      (if InitAttempt.throwFail = InitAttempt.throwFail then 1 else 0) :=
  try_initialize_warn_once.2.1 InitAttempt.throwFail
    [InitAttempt.throwFail, InitAttempt.silentFail] (by decide)

/-! C10: the float-to-int16 sample conversion of the AEC path. -/

/-- The clamp keeps every sample in [-1, 1]. -/
theorem clampSample_bounds (f : ℚ) : -1 ≤ clampSample f ∧ clampSample f ≤ 1 := by
  unfold clampSample
  split_ifs with h1 h2 <;> constructor <;> linarith

/-- Truncation toward zero keeps values of [-32767, 32767] in
[-32767, 32767]. -/
theorem truncToInt_bounds {q : ℚ} (h1 : -32767 ≤ q) (h2 : q ≤ 32767) :
    -32767 ≤ truncToInt q ∧ truncToInt q ≤ 32767 := by
  unfold truncToInt
  split_ifs with h0
  · have hf : (⌊q⌋ : ℚ) ≤ 32767 := le_trans (Int.floor_le q) h2
    have hfloor : ⌊q⌋ ≤ (32767 : ℤ) := by exact_mod_cast hf
    have hnn : (0 : ℤ) ≤ ⌊q⌋ := Int.floor_nonneg.mpr h0
    constructor <;> omega
  · push_neg at h0
    have h2n : -q ≤ 32767 := by linarith
    have hf : (⌊-q⌋ : ℚ) ≤ 32767 := le_trans (Int.floor_le _) h2n
    have hfloor : ⌊-q⌋ ≤ (32767 : ℤ) := by exact_mod_cast hf
    have hnn : (0 : ℤ) ≤ ⌊-q⌋ := Int.floor_nonneg.mpr (by linarith)
    constructor <;> omega

/-- C10: every sample of the AEC conversion loops is
`(short)(clamp(f, -1, 1) * 32767)` of the frame's channel-0 float sample, so
every converted sample lies in [-32767, 32767] and the conversion never
overflows the 16-bit range. -/
theorem float_to_int16_bounds :
    (∀ f : ℚ, -32767 ≤ floatToInt16 f ∧ floatToInt16 f ≤ 32767) ∧
    (∀ (nChannels : Nat) (buffer : List ℚ) (frames : Nat),
       ∀ x ∈ convertBatch nChannels buffer frames, -32767 ≤ x ∧ x ≤ 32767) := by
  have core : ∀ f : ℚ, -32767 ≤ floatToInt16 f ∧ floatToInt16 f ≤ 32767 := by
    intro f
    have hc := clampSample_bounds f
    have h1 : -32767 ≤ clampSample f * 32767 := by nlinarith [hc.1, hc.2]
    have h2 : clampSample f * 32767 ≤ 32767 := by nlinarith [hc.1, hc.2]
    exact truncToInt_bounds h1 h2
  refine ⟨core, ?_⟩
  intro nCh buf fr x hx
  simp only [convertBatch, List.mem_map, List.mem_range] at hx
  obtain ⟨i, -, hi⟩ := hx
  exact hi ▸ core _

/-- Witness for the C10 theorem at a concrete batch. -/
theorem float_to_int16_bounds_witness :
    floatToInt16 1 ∈ convertBatch 1 [1] 1 ∧
    -32767 ≤ floatToInt16 1 ∧ floatToInt16 1 ≤ 32767 := by
  have hmem : floatToInt16 1 ∈ convertBatch 1 [1] 1 := by
    simp [convertBatch]
  exact ⟨hmem, (float_to_int16_bounds.2 1 [1] 1 (floatToInt16 1) hmem).1,
         (float_to_int16_bounds.2 1 [1] 1 (floatToInt16 1) hmem).2⟩

/-! Branch characterizations of `aecStep`. -/

/-- When the depth after the push does not exceed the delay, the iteration
only pushes: no pop, no emission, no flush, `dmoActive` unchanged. -/
theorem aecStep_ge (d rate : Nat) (s : AecState) (inp : AecInput)
    (hd : s.inputQueue.length + 1 ≤ d) :
    aecStep d rate s inp =
      ⟨⟨s.dmoActive, s.inputQueue ++ [(⟨osTsOf inp.nowNs, inp.frames * 2⟩ : CMediaBuffer)]⟩,
       none, 0, false⟩ := by
  have hq : ¬ d < (s.inputQueue ++
      [(⟨osTsOf inp.nowNs, inp.frames * 2⟩ : CMediaBuffer)]).length := by
    simp only [List.length_append, List.length_singleton]
    omega
  simp only [aecStep]
  rw [if_neg hq]

/-- Pop with no far-end packet: bypass emission, `dmoActive` cleared,
no flush. -/
theorem aecStep_pop_far_none (d rate : Nat) (s : AecState) (inp : AecInput)
    (hd : d < s.inputQueue.length + 1) (hf : inp.farFrames = none) :
    aecStep d rate s inp =
      ⟨⟨false, (s.inputQueue ++ [(⟨osTsOf inp.nowNs, inp.frames * 2⟩ : CMediaBuffer)]).tail⟩,
       bypassFrame rate
         ((s.inputQueue ++ [(⟨osTsOf inp.nowNs, inp.frames * 2⟩ : CMediaBuffer)]).headD ⟨0, 0⟩),
       0, true⟩ := by
  have hq : d < (s.inputQueue ++
      [(⟨osTsOf inp.nowNs, inp.frames * 2⟩ : CMediaBuffer)]).length := by
    simp only [List.length_append, List.length_singleton]
    omega
  simp only [aecStep, hf]
  rw [if_pos hq]

/-- Pop with a far-end packet and a succeeding canceller: cancelled
emission, `dmoActive` set, one flush when it was clear. -/
theorem aecStep_pop_cancel (d rate : Nat) (s : AecState) (inp : AecInput) (v : Nat)
    (hd : d < s.inputQueue.length + 1) (hf : inp.farFrames = some v)
    (hk : inp.dmoOk = true) :
    aecStep d rate s inp =
      ⟨⟨true, (s.inputQueue ++ [(⟨osTsOf inp.nowNs, inp.frames * 2⟩ : CMediaBuffer)]).tail⟩,
       cancelFrame inp.dmoOutLenBytes
         ((s.inputQueue ++ [(⟨osTsOf inp.nowNs, inp.frames * 2⟩ : CMediaBuffer)]).headD ⟨0, 0⟩),
       if s.dmoActive then 0 else 1, true⟩ := by
  have hq : d < (s.inputQueue ++
      [(⟨osTsOf inp.nowNs, inp.frames * 2⟩ : CMediaBuffer)]).length := by
    simp only [List.length_append, List.length_singleton]
    omega
  simp only [aecStep, hf]
  rw [if_pos hq]
  simp [hk]

/-- Pop with a far-end packet but a failing canceller: bypass emission,
`dmoActive` cleared, still one flush when it was clear (the flush runs
before the failing `ProcessInput`). -/
theorem aecStep_pop_fail (d rate : Nat) (s : AecState) (inp : AecInput) (v : Nat)
    (hd : d < s.inputQueue.length + 1) (hf : inp.farFrames = some v)
    (hk : inp.dmoOk = false) :
    aecStep d rate s inp =
      ⟨⟨false, (s.inputQueue ++ [(⟨osTsOf inp.nowNs, inp.frames * 2⟩ : CMediaBuffer)]).tail⟩,
       bypassFrame rate
         ((s.inputQueue ++ [(⟨osTsOf inp.nowNs, inp.frames * 2⟩ : CMediaBuffer)]).headD ⟨0, 0⟩),
       if s.dmoActive then 0 else 1, true⟩ := by
  have hq : d < (s.inputQueue ++
      [(⟨osTsOf inp.nowNs, inp.frames * 2⟩ : CMediaBuffer)]).length := by
    simp only [List.length_append, List.length_singleton]
    omega
  simp only [aecStep, hf]
  rw [if_pos hq]
  simp [hk]

/-! C1: the pop condition of the pending-reference queue. -/

/-- Near-end/far-end packet of iteration `k` of the C1 lockstep trace:
441 near-end frames, a far-end packet of 480 frames, a succeeding canceller
returning 320 output bytes. -/
def c1inp (k : Nat) : AecInput := ⟨441, 1000000000 + k * 10000000, some 480, true, 320⟩

/-- The cancelled frame emitted on the third iteration of the C1 trace:
the popped batch is the one pushed at iteration 0, whose stored timestamp is
`(1000000000 / 100) - 100000 = 9900000`, emitted at `9900000 * 100`. -/
def c1out : ObsAudio := ⟨160, SPEAKERS_MONO, 22050, AudioFormat.int16, 990000000⟩

/-- C1: the capture loop pops the oldest queued near-end batch in an
iteration exactly when the queue depth after pushing that iteration's batch
exceeds the configured input delay; no output (cancelled or bypass) is
emitted in an iteration that does not pop; and with delay 2 and lockstep
near-end/far-end batches the third push triggers the first pop, the first
two iterations emitting nothing. -/
theorem aec_pop_iff_depth :
    (∀ (d rate : Nat) (s : AecState) (inp : AecInput),
       ((aecStep d rate s inp).popped = true ↔ d < s.inputQueue.length + 1)) ∧
    (∀ (d rate : Nat) (s : AecState) (inp : AecInput),
       (aecStep d rate s inp).popped = false →
       (aecStep d rate s inp).emitted = none) ∧
    aecRunEmits 2 48000 initialAecState [c1inp 0, c1inp 1, c1inp 2] =
      [none, none, some c1out] := by
  refine ⟨?_, ?_, by decide⟩
  · intro d rate s inp
    by_cases hd : d < s.inputQueue.length + 1
    · cases hf : inp.farFrames with
      | none =>
        rw [aecStep_pop_far_none d rate s inp hd hf]
        simpa using hd
      | some v =>
        cases hk : inp.dmoOk with
        | false =>
          rw [aecStep_pop_fail d rate s inp v hd hf hk]
          simpa using hd
        | true =>
          rw [aecStep_pop_cancel d rate s inp v hd hf hk]
          simpa using hd
    · rw [aecStep_ge d rate s inp (by omega)]
      simpa using hd
  · intro d rate s inp hpop
    by_cases hd : d < s.inputQueue.length + 1
    · exfalso
      cases hf : inp.farFrames with
      | none =>
        rw [aecStep_pop_far_none d rate s inp hd hf] at hpop
        simp at hpop
      | some v =>
        cases hk : inp.dmoOk with
        | false =>
          rw [aecStep_pop_fail d rate s inp v hd hf hk] at hpop
          simp at hpop
        | true =>
          rw [aecStep_pop_cancel d rate s inp v hd hf hk] at hpop
          simp at hpop
    · rw [aecStep_ge d rate s inp (by omega)]

/-- Witness for the C1 theorem at concrete inputs. -/
theorem aec_pop_iff_depth_witness :
    (aecStep 2 48000 initialAecState (c1inp 0)).popped = false ∧
    (aecStep 2 48000 initialAecState (c1inp 0)).emitted = none :=
  ⟨by decide, aec_pop_iff_depth.2.1 2 48000 initialAecState (c1inp 0) (by decide)⟩

/-! C3: boundedness of the pending-reference queue. -/

/-- One packet iteration keeps the queue depth at or below the input delay:
the iteration pushes one batch and pops one whenever the pushed depth
exceeds the delay. -/
theorem aecStep_queue_le (d rate : Nat) (s : AecState) (inp : AecInput)
    (h : s.inputQueue.length ≤ d) :
    (aecStep d rate s inp).state.inputQueue.length ≤ d := by
  by_cases hd : d < s.inputQueue.length + 1
  · cases hf : inp.farFrames with
    | none =>
      rw [aecStep_pop_far_none d rate s inp hd hf]
      simp only [List.length_tail, List.length_append, List.length_singleton]
      omega
    | some v =>
      cases hk : inp.dmoOk with
      | false =>
        rw [aecStep_pop_fail d rate s inp v hd hf hk]
        simp only [List.length_tail, List.length_append, List.length_singleton]
        omega
      | true =>
        rw [aecStep_pop_cancel d rate s inp v hd hf hk]
        simp only [List.length_tail, List.length_append, List.length_singleton]
        omega
  · rw [aecStep_ge d rate s inp (by omega)]
    simp only [List.length_append, List.length_singleton]
    omega

/-- C3: along every capture-loop run from the start state, the
pending-reference queue holds at most `aecInputDelay` batches at each
iteration boundary, and at most `aecInputDelay + 1` batches at the
within-iteration point right after the push. -/
theorem aec_queue_bounded (d rate : Nat) (ins : List AecInput) :
    (aecRunState d rate initialAecState ins).inputQueue.length ≤ d ∧
    ∀ inp : AecInput,
      ((aecRunState d rate initialAecState ins).inputQueue ++
        [(⟨osTsOf inp.nowNs, inp.frames * 2⟩ : CMediaBuffer)]).length ≤ d + 1 := by
  have main : ∀ (js : List AecInput) (s : AecState), s.inputQueue.length ≤ d →
      (aecRunState d rate s js).inputQueue.length ≤ d := by
    intro js
    induction js with
    | nil => intro s hs; exact hs
    | cons j js ih => intro s hs; exact ih _ (aecStep_queue_le d rate s j hs)
  have h0 : initialAecState.inputQueue.length ≤ d := by simp [initialAecState]
  refine ⟨main ins initialAecState h0, ?_⟩
  intro inp
  have hb := main ins initialAecState h0
  simp only [List.length_append, List.length_singleton]
  omega

/-! C5: bypass behavior and the `dmoActive` flag. -/

/-- The head of the queue after the push has a payload longer than one byte
whenever the queued batches and the pushed batch do. -/
theorem headD_append_len (s : List CMediaBuffer) (b : CMediaBuffer)
    (hb : 1 < b.lengthBytes) (hs : ∀ x ∈ s, 1 < x.lengthBytes) :
    1 < ((s ++ [b]).headD ⟨0, 0⟩).lengthBytes := by
  cases s with
  | nil => simpa using hb
  | cons a as => simpa using hs a (List.mem_cons_self _ _)

/-- C5: when a popped near-end batch has no far-end batch for pairing, the
iteration emits the popped batch raw and clears `dmoActive`; `dmoActive` can
only become true through a pop with a far-end batch and a succeeding
canceller, so it stays false across bypassed batches; a pop that pairs with
a far-end batch while `dmoActive` is false flushes the canceller exactly
once before processing, and no flush ever happens without a far-end batch. -/
theorem aec_bypass_flag_flush :
    (∀ (d rate : Nat) (s : AecState) (inp : AecInput),
       inp.farFrames = none → (aecStep d rate s inp).popped = true →
       (aecStep d rate s inp).state.dmoActive = false ∧
       (aecStep d rate s inp).emitted =
         bypassFrame rate
           ((s.inputQueue ++ [(⟨osTsOf inp.nowNs, inp.frames * 2⟩ : CMediaBuffer)]).headD ⟨0, 0⟩)) ∧
    (∀ (d rate : Nat) (s : AecState) (inp : AecInput),
       s.dmoActive = false → (aecStep d rate s inp).state.dmoActive = true →
       inp.farFrames.isSome = true ∧ inp.dmoOk = true ∧
       (aecStep d rate s inp).popped = true) ∧
    (∀ (d rate : Nat) (s : AecState) (inp : AecInput),
       s.dmoActive = false → (aecStep d rate s inp).popped = true →
       inp.farFrames.isSome = true →
       (aecStep d rate s inp).flushes = 1) ∧
    (∀ (d rate : Nat) (s : AecState) (inp : AecInput),
       inp.farFrames = none → (aecStep d rate s inp).flushes = 0) ∧
    (∀ (d rate : Nat) (s : AecState) (inp : AecInput),
       0 < inp.frames → (∀ b ∈ s.inputQueue, 1 < b.lengthBytes) →
       inp.farFrames = none → (aecStep d rate s inp).popped = true →
       (aecStep d rate s inp).emitted ≠ none) := by
  refine ⟨?_, ?_, ?_, ?_, ?_⟩
  · intro d rate s inp hfar hpop
    by_cases hd : d < s.inputQueue.length + 1
    · rw [aecStep_pop_far_none d rate s inp hd hfar]
      exact ⟨rfl, rfl⟩
    · exfalso
      rw [aecStep_ge d rate s inp (by omega)] at hpop
      simp at hpop
  · intro d rate s inp hact h2
    by_cases hd : d < s.inputQueue.length + 1
    · cases hf : inp.farFrames with
      | none =>
        rw [aecStep_pop_far_none d rate s inp hd hf] at h2
        simp at h2
      | some v =>
        cases hk : inp.dmoOk with
        | false =>
          rw [aecStep_pop_fail d rate s inp v hd hf hk] at h2
          simp at h2
        | true =>
          refine ⟨by simp [hf], rfl, ?_⟩
          rw [aecStep_pop_cancel d rate s inp v hd hf hk]
    · exfalso
      rw [aecStep_ge d rate s inp (by omega)] at h2
      simp only at h2
      rw [hact] at h2
      exact Bool.false_ne_true h2
  · intro d rate s inp hact hpop hfar
    by_cases hd : d < s.inputQueue.length + 1
    · cases hf : inp.farFrames with
      | none =>
        rw [hf] at hfar
        simp at hfar
      | some v =>
        cases hk : inp.dmoOk with
        | false =>
          rw [aecStep_pop_fail d rate s inp v hd hf hk]
          simp [hact]
        | true =>
          rw [aecStep_pop_cancel d rate s inp v hd hf hk]
          simp [hact]
    · exfalso
      rw [aecStep_ge d rate s inp (by omega)] at hpop
      simp at hpop
  · intro d rate s inp hfar
    by_cases hd : d < s.inputQueue.length + 1
    · rw [aecStep_pop_far_none d rate s inp hd hfar]
    · rw [aecStep_ge d rate s inp (by omega)]
  · intro d rate s inp hframes hq hfar hpop
    have hb : (1 : Nat) < inp.frames * 2 := by omega
    have hlen := headD_append_len s.inputQueue ⟨osTsOf inp.nowNs, inp.frames * 2⟩ hb hq
    by_cases hd : d < s.inputQueue.length + 1
    · rw [aecStep_pop_far_none d rate s inp hd hfar]
      simp only [bypassFrame]
      rw [if_pos hlen]
      simp
    · exfalso
      rw [aecStep_ge d rate s inp (by omega)] at hpop
      simp at hpop

/-- Witness for the C5 theorem at concrete inputs. -/
theorem aec_bypass_flag_flush_witness :
    ((aecStep 1 48000 ⟨true, [⟨9900000, 882⟩]⟩ ⟨441, 1000000000, none, false, 0⟩).state.dmoActive = false ∧
     (aecStep 1 48000 ⟨true, [⟨9900000, 882⟩]⟩ ⟨441, 1000000000, none, false, 0⟩).emitted =
       bypassFrame 48000
         (([(⟨9900000, 882⟩ : CMediaBuffer)] ++
           [(⟨osTsOf 1000000000, 441 * 2⟩ : CMediaBuffer)]).headD ⟨0, 0⟩)) ∧
    (aecStep 0 48000 ⟨false, []⟩ ⟨441, 1000000000, some 480, true, 320⟩).flushes = 1 :=
  ⟨aec_bypass_flag_flush.1 1 48000 ⟨true, [⟨9900000, 882⟩]⟩
      ⟨441, 1000000000, none, false, 0⟩ rfl (by decide),
   aec_bypass_flag_flush.2.2.1 0 48000 ⟨false, []⟩
      ⟨441, 1000000000, some 480, true, 320⟩ rfl (by decide) rfl⟩

/-! C6: shape and timestamp of the cancelled output. -/

/-- Packet of the C6 counterexample: pushed and popped at wall clock
`10^12` ns (delay 0), canceller succeeding with 200 output bytes
(100 frames at 22050 Hz, about 4.535 ms of playback). -/
def c6inp : AecInput := ⟨441, 1000000000000, some 480, true, 200⟩

/-- C6 counterexample: the cancelled output of the concrete iteration
carries timestamp `((10^12 / 100) - 100000) * 100` — the enqueue wall clock
minus a fixed 10 ms — which differs from wall-clock minus the batch's
playback duration, `10^12 - 100 * 10^9 / 22050`, the value the claim
prescribes. -/
theorem aec_cancel_timestamp_counterexample :
    (aecStep 0 48000 initialAecState c6inp).emitted =
      some ⟨100, SPEAKERS_MONO, 22050, AudioFormat.int16, 999990000000⟩ ∧
    999990000000 ≠ sub64 c6inp.nowNs (100 * 1000000000 / 22050) := by decide

/-- C6 amended: every successful cancellation emits exactly one mono 16-bit
batch at the fixed 22050 Hz rate whose timestamp is the popped batch's
stored enqueue timestamp times 100 — and that stored timestamp is the
enqueue-time wall clock in 100 ns units minus 10 ms
(`os_gettime_ns() / 100 - 100000`), not the device-reported capture
timestamp and not wall-clock-at-emit minus the batch's playback duration. -/
theorem aec_cancel_output_shape :
    (∀ (d rate : Nat) (s : AecState) (inp : AecInput),
       (aecStep d rate s inp).popped = true →
       inp.farFrames.isSome = true → inp.dmoOk = true → 1 < inp.dmoOutLenBytes →
       (aecStep d rate s inp).emitted =
         some ⟨inp.dmoOutLenBytes / 2, SPEAKERS_MONO, 22050, AudioFormat.int16,
               wrap64 (((s.inputQueue ++
                 [(⟨osTsOf inp.nowNs, inp.frames * 2⟩ : CMediaBuffer)]).headD ⟨0, 0⟩).timestamp * 100)⟩) ∧
    (∀ (d rate : Nat) (s : AecState) (inp : AecInput),
       (aecStep d rate s inp).popped = false →
       (aecStep d rate s inp).state.inputQueue.getLast? =
         some ⟨osTsOf inp.nowNs, inp.frames * 2⟩) := by
  constructor
  · intro d rate s inp hpop hfar hok hlen
    cases hf : inp.farFrames with
    | none =>
      rw [hf] at hfar
      simp at hfar
    | some v =>
      by_cases hd : d < s.inputQueue.length + 1
      · rw [aecStep_pop_cancel d rate s inp v hd hf hok]
        simp only [cancelFrame]
        rw [if_pos hlen]
      · exfalso
        rw [aecStep_ge d rate s inp (by omega)] at hpop
        simp at hpop
  · intro d rate s inp hpop
    by_cases hd : d < s.inputQueue.length + 1
    · exfalso
      cases hf : inp.farFrames with
      | none =>
        rw [aecStep_pop_far_none d rate s inp hd hf] at hpop
        simp at hpop
      | some v =>
        cases hk : inp.dmoOk with
        | false =>
          rw [aecStep_pop_fail d rate s inp v hd hf hk] at hpop
          simp at hpop
        | true =>
          rw [aecStep_pop_cancel d rate s inp v hd hf hk] at hpop
          simp at hpop
    · rw [aecStep_ge d rate s inp (by omega)]
      simp [List.getLast?_concat]

/-- Witness for the amended C6 theorem at concrete inputs. -/
theorem aec_cancel_output_shape_witness :
    (aecStep 0 48000 initialAecState ⟨441, 1000000000, some 480, true, 320⟩).emitted =
      some ⟨160, SPEAKERS_MONO, 22050, AudioFormat.int16,
            wrap64 (((initialAecState.inputQueue ++
              [(⟨osTsOf 1000000000, 441 * 2⟩ : CMediaBuffer)]).headD ⟨0, 0⟩).timestamp * 100)⟩ :=
  aec_cancel_output_shape.1 0 48000 initialAecState
    ⟨441, 1000000000, some 480, true, 320⟩ (by decide) rfl rfl (by decide)

end Wasapi
